import Mathlib

/-!
Verification of the render-pipeline core (`src/pipeline.rs`) of the three-d
repository: the `ForwardPipeline` and `DeferredPipeline` structures, their
construction, resizing, pass-begin protocol and texture/program accessors.

The pipeline's collaborators (render-target service, shader-program service,
GPU state controller, light and camera entities) live in modules that are not
part of the pipeline core; they are modelled here from the spec's interface
contracts.  The pipeline logic itself is translated line by line from
`src/src/pipeline.rs`.

GPU side effects (target binds/clears, state transitions, texture binds,
uniform uploads, draws) are modelled as a trace of commands: each pipeline
method returns the list of commands it issued together with its `Result`.
Fallibility of the external services (shader compilation, target allocation,
uniform-name resolution) is modelled by an oracle environment `Env` saying
which external calls succeed.  Rust's partial-index accesses (`targets[0]`)
are modelled with `Option`: `none` is the panic.
-/

set_option autoImplicit false

namespace ThreeD

/-- Modelled from the spec: 3-component vector values (`vec3`) are passed
through the pipeline unchanged (camera eye position, light parameters); the
component arithmetic is irrelevant to the pipeline core, so components are
modelled as integers. -/
structure Vec3 where
  x : Int
  y : Int
  z : Int
deriving DecidableEq, Repr

/-- Modelled from the spec: a compiled shader program handle, identified by the
vertex/fragment resource paths it was compiled from. -/
structure Program where
  vertPath : String
  fragPath : String
deriving DecidableEq, Repr

/-- Modelled from the spec: a GPU texture resource sized to the viewport that
allocated it. -/
structure Texture where
  width : Nat
  height : Nat
deriving DecidableEq, Repr

/-- Modelled from the spec: a render target that writes to the default
framebuffer (the visible surface), sized to the viewport. -/
structure ScreenRendertarget where
  width : Nat
  height : Nat
deriving DecidableEq, Repr

/-- Modelled from the spec: an off-screen render target with a configurable
number of color attachments plus a shared depth attachment, all sized to the
viewport. -/
structure ColorRendertarget where
  width : Nat
  height : Nat
  targets : List Texture
  depth_target : Texture
deriving DecidableEq, Repr

/-- Modelled from the spec: the shadow render target optionally owned by a
directional light. -/
structure ShadowRendertarget where
  width : Nat
  height : Nat
deriving DecidableEq, Repr

/-- Modelled from the spec: the camera; only its position (eye position) is
consumed by the pipeline core. -/
structure Camera where
  position : Vec3
deriving DecidableEq, Repr

/-- Modelled from the spec: base light data (color, ambient and diffuse
intensity; the f32 intensities are passed through, modelled as integers). -/
structure LightBase where
  color : Vec3
  ambient_intensity : Int
  diffuse_intensity : Int
deriving DecidableEq, Repr

/-- Modelled from the spec: a directional light with direction, base data and
an optional associated shadow render target. -/
structure DirectionalLight where
  direction : Vec3
  base : LightBase
  shadow_render_target : Option ShadowRendertarget
deriving DecidableEq, Repr

/-- Depth-test modes used by the pipeline core (`state::DepthTestType`). -/
inductive DepthTestType where
  | NONE
  | LEQUAL
deriving DecidableEq, Repr

/-- Face-culling modes used by the pipeline core (`state::CullType`). -/
inductive CullType where
  | NONE
  | BACK
deriving DecidableEq, Repr

/-- Blend modes used by the pipeline core (`state::BlendType`);
`ONE__ONE` is additive ONE+ONE blending. -/
inductive BlendType where
  | NONE
  | ONE__ONE
deriving DecidableEq, Repr

/-- Modelled from the spec: errors of the shader-program service
(compile/link failure, missing uniform name). -/
inductive ProgramError where
  | compilation (vertPath : String) (fragPath : String)
  | missingUniform (program : Program) (name : String)
deriving DecidableEq, Repr

/-- Modelled from the spec: errors of the render-target service
(allocation failure for the requested size). -/
inductive RendertargetError where
  | screenAllocation (width : Nat) (height : Nat)
  | colorAllocation (width : Nat) (height : Nat) (count : Nat)
deriving DecidableEq, Repr

/-- The pipeline error enum (`pipeline::Error`). -/
inductive Error where
  | Program (e : ProgramError)
  | Rendertarget (e : RendertargetError)
  | Traits
  | LightPassRendertargetNotAvailable (message : String)
  | ShadowRendertargetNotAvailable (message : String)
deriving DecidableEq, Repr

/-- A GPU command issued by a pipeline method: target binds/clears, state
transitions, texture binds to sampler slots, uniform uploads, full-screen-quad
draws. -/
inductive GpuCmd where
  | bindScreen (t : ScreenRendertarget)
  | clearScreen (t : ScreenRendertarget)
  | bindColor (t : ColorRendertarget)
  | clearColor (t : ColorRendertarget)
  | bindShadow (t : ShadowRendertarget)
  | clearShadow (t : ShadowRendertarget)
  | depthWrite (enabled : Bool)
  | depthTest (t : DepthTestType)
  | cull (c : CullType)
  | blend (b : BlendType)
  | bindTexture (tex : Texture) (slot : Nat)
  | uniformInt (p : Program) (name : String) (v : Int)
  | uniformVec3 (p : Program) (name : String) (v : Vec3)
  | fullScreenQuad (p : Program)
deriving DecidableEq, Repr

/-- Oracle environment describing which external-service calls succeed:
shader compilation per resource path pair, screen/color render-target
allocation per requested size, and uniform-name resolution per program. -/
structure Env where
  progOk : String → String → Bool
  screenOk : Nat → Nat → Bool
  colorOk : Nat → Nat → Nat → Bool
  uniformOk : Program → String → Bool

/-- Modelled from the spec: shader-program service
`from_resource(context, vertex_path, fragment_path) -> Program | Error`. -/
def Program.from_resource (env : Env) (vertPath fragPath : String) :
    Except Error Program :=
  if env.progOk vertPath fragPath then .ok ⟨vertPath, fragPath⟩
  else .error (.Program (.compilation vertPath fragPath))

/-- Modelled from the spec: render-target service
`ScreenRendertarget::create(context, width, height)`, allocating a screen
target sized to the viewport. -/
def ScreenRendertarget.create (env : Env) (width height : Nat) :
    Except Error ScreenRendertarget :=
  if env.screenOk width height then .ok ⟨width, height⟩
  else .error (.Rendertarget (.screenAllocation width height))

/-- Modelled from the spec: render-target service
`ColorRendertarget::create(context, width, height, count)`, allocating `count`
color attachments plus a shared depth attachment, all sized to the viewport. -/
def ColorRendertarget.create (env : Env) (width height count : Nat) :
    Except Error ColorRendertarget :=
  if env.colorOk width height count then
    .ok ⟨width, height, List.replicate count ⟨width, height⟩, ⟨width, height⟩⟩
  else .error (.Rendertarget (.colorAllocation width height count))

/-- Sequencing of two command-issuing fallible steps: the second step runs only
when the first succeeded, and the commands of both are concatenated — the
trace-level meaning of Rust's statement sequencing with `?` propagation. -/
def andThen (a : List GpuCmd × Except Error Unit)
    (b : Unit → List GpuCmd × Except Error Unit) :
    List GpuCmd × Except Error Unit :=
  match a with
  | (cs, .ok ()) => let r := b (); (cs ++ r.1, r.2)
  | (cs, .error e) => (cs, .error e)

/-- `Program::add_uniform_int`: uploads an integer (sampler-slot) uniform;
fails with a `Program` error when the named uniform does not resolve. -/
def Program.add_uniform_int (env : Env) (p : Program) (name : String)
    (v : Int) : List GpuCmd × Except Error Unit :=
  if env.uniformOk p name then ([.uniformInt p name v], .ok ())
  else ([], .error (.Program (.missingUniform p name)))

/-- `Program::add_uniform_vec3`: uploads a vec3 uniform; fails with a
`Program` error when the named uniform does not resolve. -/
def Program.add_uniform_vec3 (env : Env) (p : Program) (name : String)
    (v : Vec3) : List GpuCmd × Except Error Unit :=
  if env.uniformOk p name then ([.uniformVec3 p name v], .ok ())
  else ([], .error (.Program (.missingUniform p name)))

/-- The resource path of the light-accumulation shader
(`pipeline.rs` line 88). -/
def lightPassPath : String := "../Dust/examples/assets/shaders/light_pass"

/-- The resource path of the copy-to-screen shader (`pipeline.rs` line 96). -/
def copyPath : String := "../Dust/examples/assets/shaders/copy"

/-- The availability-error message of `light_pass_color_texture` and
`copy_program` (apostrophes of the source text omitted). -/
def lightPassNotAvailableMsg : String :=
  "Light pass render target is not available, consider creating the pipeline with use_light_pass_rendertarget set to true"

/-- The availability-error message of `shadow_cast_begin`. -/
def shadowNotAvailableMsg : String :=
  "Trying to cast shadows with no shadow render target available"

/-- `ForwardPipeline`: the single-pass pipeline (GPU context handle omitted). -/
structure ForwardPipeline where
  width : Nat
  height : Nat
  rendertarget : ScreenRendertarget
deriving DecidableEq, Repr

/-- `ForwardPipeline::create`: allocates a screen render target sized to the
viewport. -/
def ForwardPipeline.create (env : Env) (width height : Nat) :
    Except Error ForwardPipeline :=
  match ScreenRendertarget.create env width height with
  | .error e => .error e
  | .ok rendertarget => .ok { width, height, rendertarget }

/-- `ForwardPipeline::resize`: reallocates the screen target and updates the
stored dimensions; on allocation failure `self` is unchanged (the `?` fires
before any field assignment). -/
def ForwardPipeline.resize (env : Env) (self : ForwardPipeline)
    (width height : Nat) : ForwardPipeline × Except Error Unit :=
  match ScreenRendertarget.create env width height with
  | .error e => (self, .error e)
  | .ok rt => ({ width, height, rendertarget := rt }, .ok ())

/-- `ForwardPipeline::render_pass_begin`: binds and clears the screen target. -/
def ForwardPipeline.render_pass_begin (self : ForwardPipeline) :
    List GpuCmd × Except Error Unit :=
  ([.bindScreen self.rendertarget, .clearScreen self.rendertarget], .ok ())

/-- `DeferredPipeline`: the multi-pass orchestrator (GPU context handle
omitted). -/
structure DeferredPipeline where
  width : Nat
  height : Nat
  light_pass_program : Program
  copy_program : Option Program
  rendertarget : ScreenRendertarget
  geometry_pass_rendertarget : ColorRendertarget
  light_pass_rendertarget : Option ColorRendertarget
deriving DecidableEq, Repr

/-- `DeferredPipeline::create`: compiles the light-accumulation program,
allocates the screen target and the 3-attachment geometry target at
`(width, height)`, and, when `use_light_pass_rendertarget` is set, additionally
allocates a 1-attachment light-pass target and compiles the copy program; any
failure aborts construction. -/
def DeferredPipeline.create (env : Env) (width height : Nat)
    (use_light_pass_rendertarget : Bool) : Except Error DeferredPipeline :=
  match Program.from_resource env lightPassPath lightPassPath with
  | .error e => .error e
  | .ok light_pass_program =>
    match ScreenRendertarget.create env width height with
    | .error e => .error e
    | .ok rendertarget =>
      match ColorRendertarget.create env width height 3 with
      | .error e => .error e
      | .ok geometry_pass_rendertarget =>
        if use_light_pass_rendertarget then
          match ColorRendertarget.create env width height 1 with
          | .error e => .error e
          | .ok lrt =>
            match Program.from_resource env copyPath copyPath with
            | .error e => .error e
            | .ok cp =>
              .ok { width, height, light_pass_program,
                    copy_program := some cp, rendertarget,
                    geometry_pass_rendertarget,
                    light_pass_rendertarget := some lrt }
        else
          .ok { width, height, light_pass_program, copy_program := none,
                rendertarget, geometry_pass_rendertarget,
                light_pass_rendertarget := none }

/-- `DeferredPipeline::resize`: reallocates the screen and geometry targets
and updates the stored dimensions.  The partial-mutation semantics of the Rust
method are kept: when the geometry-target allocation fails, the screen target
has already been replaced while `width`, `height` and the geometry target keep
their old values. -/
def DeferredPipeline.resize (env : Env) (self : DeferredPipeline)
    (width height : Nat) : DeferredPipeline × Except Error Unit :=
  match ScreenRendertarget.create env width height with
  | .error e => (self, .error e)
  | .ok rt =>
    let self1 := { self with rendertarget := rt }
    match ColorRendertarget.create env width height 3 with
    | .error e => (self1, .error e)
    | .ok grt =>
      ({ self1 with geometry_pass_rendertarget := grt, width, height }, .ok ())

/-- `DeferredPipeline::geometry_pass_color_texture`: the geometry target's
attachment 0; `none` models the Rust index panic when the attachment list is
shorter. -/
def DeferredPipeline.geometry_pass_color_texture (self : DeferredPipeline) :
    Option Texture :=
  self.geometry_pass_rendertarget.targets[0]?

/-- `DeferredPipeline::geometry_pass_position_texture`: the geometry target's
attachment 1. -/
def DeferredPipeline.geometry_pass_position_texture (self : DeferredPipeline) :
    Option Texture :=
  self.geometry_pass_rendertarget.targets[1]?

/-- `DeferredPipeline::geometry_pass_normal_texture`: the geometry target's
attachment 2. -/
def DeferredPipeline.geometry_pass_normal_texture (self : DeferredPipeline) :
    Option Texture :=
  self.geometry_pass_rendertarget.targets[2]?

/-- `DeferredPipeline::geometry_pass_depth_texture`: the geometry target's
depth attachment (a plain field, total). -/
def DeferredPipeline.geometry_pass_depth_texture (self : DeferredPipeline) :
    Texture :=
  self.geometry_pass_rendertarget.depth_target

/-- `DeferredPipeline::light_pass_color_texture`: attachment 0 of the
light-pass target when present, the availability error otherwise; the outer
`none` models the Rust index panic. -/
def DeferredPipeline.light_pass_color_texture (self : DeferredPipeline) :
    Option (Except Error Texture) :=
  match self.light_pass_rendertarget with
  | some rt => (rt.targets[0]?).map .ok
  | none =>
    some (.error (.LightPassRendertargetNotAvailable lightPassNotAvailableMsg))

/-- `DeferredPipeline::copy_program` (the accessor method; the structure field
of the same name forces the Lean name `get_copy_program`): the copy program
when present, the availability error otherwise. -/
def DeferredPipeline.get_copy_program (self : DeferredPipeline) :
    Except Error Program :=
  match self.copy_program with
  | some program => .ok program
  | none =>
    .error (.LightPassRendertargetNotAvailable lightPassNotAvailableMsg)

/-- `DeferredPipeline::geometry_pass_begin`: binds and clears the geometry
target; depth write on, depth test LEQUAL, culling off, blending off. -/
def DeferredPipeline.geometry_pass_begin (self : DeferredPipeline)
    (_camera : Camera) : List GpuCmd × Except Error Unit :=
  ([.bindColor self.geometry_pass_rendertarget,
    .clearColor self.geometry_pass_rendertarget,
    .depthWrite true, .depthTest .LEQUAL, .cull .NONE, .blend .NONE], .ok ())

/-- `DeferredPipeline::shadow_cast_begin`: when the light owns a shadow target,
binds and clears it and sets depth write on, depth test LEQUAL, cull back,
blending off; otherwise fails with `ShadowRendertargetNotAvailable`. -/
def DeferredPipeline.shadow_cast_begin (_self : DeferredPipeline)
    (light : DirectionalLight) : List GpuCmd × Except Error Unit :=
  match light.shadow_render_target with
  | some rendertarget =>
    ([.bindShadow rendertarget, .clearShadow rendertarget,
      .depthWrite true, .depthTest .LEQUAL, .cull .BACK, .blend .NONE], .ok ())
  | none => ([], .error (.ShadowRendertargetNotAvailable shadowNotAvailableMsg))

/-- `DeferredPipeline::light_pass_begin`: binds and clears the light-pass
target when present, the screen target otherwise; sets depth write off, depth
test off, cull back, additive blending; binds the geometry-pass color,
position, normal and depth textures to slots 0..3 with matching sampler
uniforms on the light program and uploads the camera position as
`eyePosition`.  The outer `none` models the Rust index panic of the geometry
texture accessors. -/
def DeferredPipeline.light_pass_begin (env : Env) (self : DeferredPipeline)
    (camera : Camera) : Option (List GpuCmd × Except Error Unit) := do
  let ct ← self.geometry_pass_color_texture
  let pt ← self.geometry_pass_position_texture
  let nt ← self.geometry_pass_normal_texture
  let bindCmds : List GpuCmd :=
    match self.light_pass_rendertarget with
    | some rendertarget => [.bindColor rendertarget, .clearColor rendertarget]
    | none => [.bindScreen self.rendertarget, .clearScreen self.rendertarget]
  some (
    andThen (bindCmds ++
      [.depthWrite false, .depthTest .NONE, .cull .BACK, .blend .ONE__ONE,
       .bindTexture ct 0], .ok ()) fun _ =>
    andThen (Program.add_uniform_int env self.light_pass_program "colorMap" 0)
      fun _ =>
    andThen ([.bindTexture pt 1], .ok ()) fun _ =>
    andThen (Program.add_uniform_int env self.light_pass_program "positionMap" 1)
      fun _ =>
    andThen ([.bindTexture nt 2], .ok ()) fun _ =>
    andThen (Program.add_uniform_int env self.light_pass_program "normalMap" 2)
      fun _ =>
    andThen ([.bindTexture self.geometry_pass_depth_texture 3], .ok ()) fun _ =>
    andThen (Program.add_uniform_int env self.light_pass_program "depthMap" 3)
      fun _ =>
    Program.add_uniform_vec3 env self.light_pass_program "eyePosition"
      camera.position)

/-- `DeferredPipeline::copy_to_screen`: obtains the copy program (failing with
the availability error, before any GPU command, when absent), binds and clears
the screen target, sets depth write on, LEQUAL, cull back, blending off, binds
the light-pass color texture to slot 0 and the geometry depth texture to
slot 1 with matching sampler uniforms, and draws a full-screen quad.  The
outer `none` models the Rust index panic of `light_pass_color_texture`. -/
def DeferredPipeline.copy_to_screen (env : Env) (self : DeferredPipeline) :
    Option (List GpuCmd × Except Error Unit) :=
  match self.get_copy_program with
  | .error e => some ([], .error e)
  | .ok program =>
    match self.light_pass_color_texture with
    | none => none
    | some lpct =>
      some (
        andThen ([.bindScreen self.rendertarget, .clearScreen self.rendertarget,
          .depthWrite true, .depthTest .LEQUAL, .cull .BACK, .blend .NONE],
          .ok ()) fun _ =>
        andThen (match lpct with
          | .error e => ([], .error e)
          | .ok tex => ([.bindTexture tex 0], .ok ())) fun _ =>
        andThen (Program.add_uniform_int env program "colorMap" 0) fun _ =>
        andThen ([.bindTexture self.geometry_pass_depth_texture 1], .ok ())
          fun _ =>
        andThen (Program.add_uniform_int env program "depthMap" 1) fun _ =>
        ([.fullScreenQuad program], .ok ()))

/-- Pipelines observable by a caller holding the construction flag: the result
of `create` with `use_light_pass_rendertarget = flag`, followed by any number
of `resize` calls (failed resizes included, since a failed resize still leaves
the caller with the partially-mutated pipeline). -/
inductive Reaches : Bool → DeferredPipeline → Prop where
  | create {env : Env} {w h : Nat} {flag : Bool} {p : DeferredPipeline} :
      DeferredPipeline.create env w h flag = .ok p → Reaches flag p
  | resize {flag : Bool} {p : DeferredPipeline} {env : Env} {w h : Nat} :
      Reaches flag p → Reaches flag (DeferredPipeline.resize env p w h).1

/-- An oracle environment in which every external call succeeds. -/
def envAll : Env :=
  ⟨fun _ _ => true, fun _ _ => true, fun _ _ _ => true, fun _ _ => true⟩

/-- The light-accumulation program handle compiled from its resource path. -/
def lightProg : Program := ⟨lightPassPath, lightPassPath⟩

/-- The copy-to-screen program handle compiled from its resource path. -/
def copyProg : Program := ⟨copyPath, copyPath⟩

/-- A 1×1 texture. -/
def tex1 : Texture := ⟨1, 1⟩

/-- The pipeline built by `DeferredPipeline.create envAll 1 1 true`. -/
def pipeBuf : DeferredPipeline :=
  { width := 1, height := 1, light_pass_program := lightProg,
    copy_program := some copyProg, rendertarget := ⟨1, 1⟩,
    geometry_pass_rendertarget := ⟨1, 1, [tex1, tex1, tex1], tex1⟩,
    light_pass_rendertarget := some ⟨1, 1, [tex1], tex1⟩ }

/-- The pipeline built by `DeferredPipeline.create envAll 1 1 false`. -/
def pipeNoBuf : DeferredPipeline :=
  { width := 1, height := 1, light_pass_program := lightProg,
    copy_program := none, rendertarget := ⟨1, 1⟩,
    geometry_pass_rendertarget := ⟨1, 1, [tex1, tex1, tex1], tex1⟩,
    light_pass_rendertarget := none }

theorem create_envAll_true : DeferredPipeline.create envAll 1 1 true = .ok pipeBuf := by
  rfl

theorem create_envAll_false :
    DeferredPipeline.create envAll 1 1 false = .ok pipeNoBuf := by
  rfl

/-- Everything a successful `create` guarantees about the returned pipeline. -/
theorem create_ok_spec {env : Env} {w h : Nat} {flag : Bool}
    {p : DeferredPipeline}
    (hc : DeferredPipeline.create env w h flag = .ok p) :
    p.width = w ∧ p.height = h ∧
    p.light_pass_program = ⟨lightPassPath, lightPassPath⟩ ∧
    p.rendertarget = ⟨w, h⟩ ∧
    p.geometry_pass_rendertarget = ⟨w, h, [⟨w, h⟩, ⟨w, h⟩, ⟨w, h⟩], ⟨w, h⟩⟩ ∧
    ((flag = true ∧ p.copy_program = some ⟨copyPath, copyPath⟩ ∧
        p.light_pass_rendertarget = some ⟨w, h, [⟨w, h⟩], ⟨w, h⟩⟩) ∨
      (flag = false ∧ p.copy_program = none ∧
        p.light_pass_rendertarget = none)) := by
  cases flag <;>
    by_cases h1 : env.progOk lightPassPath lightPassPath = true <;>
    by_cases h2 : env.screenOk w h = true <;>
    by_cases h3 : env.colorOk w h 3 = true <;>
    by_cases h4 : env.colorOk w h 1 = true <;>
    by_cases h5 : env.progOk copyPath copyPath = true <;>
    simp [DeferredPipeline.create, Program.from_resource,
      ScreenRendertarget.create, ColorRendertarget.create, h1, h2, h3, h4,
      h5, List.replicate] at hc <;>
    subst hc <;> simp

/-- The shape invariant maintained by construction and resizing: the geometry
target has exactly three identical-size color attachments, the light-pass
target and copy program are present exactly when the construction flag was
set, and a present light-pass target has exactly one color attachment. -/
structure GoodPipeline (flag : Bool) (p : DeferredPipeline) : Prop where
  geom : ∃ t : Texture, p.geometry_pass_rendertarget.targets = [t, t, t]
  copy_flag : p.copy_program.isSome = flag
  light_flag : p.light_pass_rendertarget.isSome = flag
  light_one : ∀ rt, p.light_pass_rendertarget = some rt →
    ∃ t : Texture, rt.targets = [t]

/-- Every reachable pipeline satisfies the shape invariant. -/
theorem reaches_good {flag : Bool} {p : DeferredPipeline}
    (h : Reaches flag p) : GoodPipeline flag p := by
  induction h with
  | create hc =>
    obtain ⟨-, -, -, -, hg, hopt⟩ := create_ok_spec hc
    refine ⟨⟨_, by rw [hg]⟩, ?_, ?_, ?_⟩ <;>
      rcases hopt with ⟨hf, hcp, hlrt⟩ | ⟨hf, hcp, hlrt⟩ <;>
      subst hf <;> simp [hcp, hlrt]
  | resize hr ih =>
    rename_i env w h
    obtain ⟨hg, hcp, hlf, hlo⟩ := ih
    unfold DeferredPipeline.resize
    split
    · exact ⟨hg, hcp, hlf, hlo⟩
    · split
      · exact ⟨hg, hcp, hlf, hlo⟩
      · rename_i grt heq2
        unfold ColorRendertarget.create at heq2
        split at heq2
        · cases heq2
          exact ⟨⟨⟨w, h⟩, rfl⟩, hcp, hlf, hlo⟩
        · cases heq2

/-- A successful `create` certifies that the oracle accepted the program
compilation and the screen and geometry allocations at `(w, h)`. -/
theorem create_ok_env {env : Env} {w h : Nat} {flag : Bool}
    {p : DeferredPipeline}
    (hc : DeferredPipeline.create env w h flag = .ok p) :
    env.progOk lightPassPath lightPassPath = true ∧
    env.screenOk w h = true ∧ env.colorOk w h 3 = true := by
  by_cases h1 : env.progOk lightPassPath lightPassPath = true <;>
    by_cases h2 : env.screenOk w h = true <;>
    by_cases h3 : env.colorOk w h 3 = true <;>
    simp [DeferredPipeline.create, Program.from_resource,
      ScreenRendertarget.create, ColorRendertarget.create, h1, h2, h3] at hc ⊢

/-- When the oracle accepts both allocations at `(w, h)`, `resize` succeeds
and replaces exactly the screen target, the geometry target and the stored
dimensions. -/
theorem resize_of_ok {env : Env} (p : DeferredPipeline) {w h : Nat}
    (h1 : env.screenOk w h = true) (h2 : env.colorOk w h 3 = true) :
    DeferredPipeline.resize env p w h =
      ({ p with
          width := w,
          height := h,
          rendertarget := ⟨w, h⟩,
          geometry_pass_rendertarget :=
            ⟨w, h, [⟨w, h⟩, ⟨w, h⟩, ⟨w, h⟩], ⟨w, h⟩⟩ }, .ok ()) := by
  simp [DeferredPipeline.resize, ScreenRendertarget.create,
    ColorRendertarget.create, h1, h2, List.replicate]

/-- Everything a successful `resize` guarantees: the final pipeline is the old
one with new screen target, new 3-attachment geometry target and new stored
dimensions, and the oracle accepted both allocations. -/
theorem resize_ok_spec {env : Env} {p p' : DeferredPipeline} {w h : Nat}
    (hres : DeferredPipeline.resize env p w h = (p', .ok ())) :
    p' = { p with
            width := w,
            height := h,
            rendertarget := ⟨w, h⟩,
            geometry_pass_rendertarget :=
              ⟨w, h, [⟨w, h⟩, ⟨w, h⟩, ⟨w, h⟩], ⟨w, h⟩⟩ } ∧
    env.screenOk w h = true ∧ env.colorOk w h 3 = true := by
  by_cases h1 : env.screenOk w h = true <;>
    by_cases h2 : env.colorOk w h 3 = true <;>
    simp [DeferredPipeline.resize, ScreenRendertarget.create,
      ColorRendertarget.create, h1, h2, List.replicate] at hres ⊢
  simp [hres]

/-- A directional light with no shadow render target. -/
def lightNoShadow : DirectionalLight := ⟨⟨0, 0, 1⟩, ⟨⟨1, 1, 1⟩, 1, 1⟩, none⟩

/-- A directional light owning a 2×2 shadow render target. -/
def lightWithShadow : DirectionalLight :=
  ⟨⟨0, 0, 1⟩, ⟨⟨1, 1, 1⟩, 1, 1⟩, some ⟨2, 2⟩⟩

/-- C4: `shadow_cast_begin` fails with `ShadowRendertargetNotAvailable` if and
only if the light has no shadow render target, for every pipeline
configuration; when the light has one, it binds and clears that target, sets
depth write on, depth test LEQUAL, back-face culling and blending off, and
succeeds. -/
theorem c4_shadow_cast_begin (p : DeferredPipeline)
    (light : DirectionalLight) :
    (light.shadow_render_target = none →
      p.shadow_cast_begin light =
        ([], .error (.ShadowRendertargetNotAvailable shadowNotAvailableMsg))) ∧
    (∀ rt, light.shadow_render_target = some rt →
      p.shadow_cast_begin light =
        ([.bindShadow rt, .clearShadow rt, .depthWrite true,
          .depthTest .LEQUAL, .cull .BACK, .blend .NONE], .ok ())) := by
  constructor
  · intro hn
    simp [DeferredPipeline.shadow_cast_begin, hn]
  · intro rt hrt
    simp [DeferredPipeline.shadow_cast_begin, hrt]

/-- C4 witness: the concrete outcomes on a pipeline without buffering, for a
light without and with a shadow target. -/
theorem c4_witness :
    pipeNoBuf.shadow_cast_begin lightNoShadow =
      ([], .error (.ShadowRendertargetNotAvailable shadowNotAvailableMsg)) ∧
    pipeNoBuf.shadow_cast_begin lightWithShadow =
      ([.bindShadow ⟨2, 2⟩, .clearShadow ⟨2, 2⟩, .depthWrite true,
        .depthTest .LEQUAL, .cull .BACK, .blend .NONE], .ok ()) :=
  ⟨(c4_shadow_cast_begin pipeNoBuf lightNoShadow).1 rfl,
   (c4_shadow_cast_begin pipeNoBuf lightWithShadow).2 ⟨2, 2⟩ rfl⟩

/-- C3: on every pipeline constructed with `use_light_pass_rendertarget =
false` (and arbitrarily resized afterwards), `light_pass_color_texture` and
the `copy_program` accessor fail with exactly the
`LightPassRendertargetNotAvailable` error, without panicking; with the flag
`true` both succeed. -/
theorem c3_availability {flag : Bool} {p : DeferredPipeline}
    (hr : Reaches flag p) :
    (flag = false →
      p.light_pass_color_texture =
        some (.error
          (.LightPassRendertargetNotAvailable lightPassNotAvailableMsg)) ∧
      p.get_copy_program =
        .error (.LightPassRendertargetNotAvailable lightPassNotAvailableMsg)) ∧
    (flag = true →
      (∃ t, p.light_pass_color_texture = some (.ok t)) ∧
      (∃ pr, p.get_copy_program = .ok pr)) := by
  obtain ⟨-, hcp, hlf, hlo⟩ := reaches_good hr
  constructor
  · rintro rfl
    have h1 : p.copy_program = none := by
      cases h : p.copy_program <;> simp [h] at hcp ⊢
    have h2 : p.light_pass_rendertarget = none := by
      cases h : p.light_pass_rendertarget <;> simp [h] at hlf ⊢
    exact ⟨by simp [DeferredPipeline.light_pass_color_texture, h2],
           by simp [DeferredPipeline.get_copy_program, h1]⟩
  · rintro rfl
    have h1 : ∃ pr, p.copy_program = some pr := by
      cases h : p.copy_program <;> simp [h] at hcp ⊢
    have h2 : ∃ rt, p.light_pass_rendertarget = some rt := by
      cases h : p.light_pass_rendertarget <;> simp [h] at hlf ⊢
    obtain ⟨pr, hpr⟩ := h1
    obtain ⟨rt, hrt⟩ := h2
    obtain ⟨t, ht⟩ := hlo rt hrt
    exact ⟨⟨t, by
        simp [DeferredPipeline.light_pass_color_texture, hrt, ht]⟩,
      ⟨pr, by simp [DeferredPipeline.get_copy_program, hpr]⟩⟩

/-- C3 witness: the concrete availability errors on the pipeline created with
the flag off. -/
theorem c3_witness :
    pipeNoBuf.light_pass_color_texture =
      some (.error
        (.LightPassRendertargetNotAvailable lightPassNotAvailableMsg)) ∧
    pipeNoBuf.get_copy_program =
      .error (.LightPassRendertargetNotAvailable lightPassNotAvailableMsg) :=
  (c3_availability (Reaches.create create_envAll_false)).1 rfl

/-- C6: `create` makes the light-pass render target and the copy program
present exactly when `use_light_pass_rendertarget` is set, and `resize`
(successful or not) never changes either field. -/
theorem c6_toggle (env : Env) (w h : Nat) (flag : Bool)
    (p : DeferredPipeline) :
    (DeferredPipeline.create env w h flag = .ok p →
      p.copy_program.isSome = flag ∧
      p.light_pass_rendertarget.isSome = flag) ∧
    (∀ q : DeferredPipeline,
      (DeferredPipeline.resize env q w h).1.copy_program = q.copy_program ∧
      (DeferredPipeline.resize env q w h).1.light_pass_rendertarget =
        q.light_pass_rendertarget) := by
  constructor
  · intro hc
    obtain ⟨-, -, -, -, -, hopt⟩ := create_ok_spec hc
    rcases hopt with ⟨hf, hcp, hlrt⟩ | ⟨hf, hcp, hlrt⟩ <;> subst hf <;>
      simp [hcp, hlrt]
  · intro q
    unfold DeferredPipeline.resize
    split
    · exact ⟨rfl, rfl⟩
    · split <;> exact ⟨rfl, rfl⟩

/-- C6 witness: on the buffered 1×1 pipeline both components are present. -/
theorem c6_witness :
    pipeBuf.copy_program.isSome = true ∧
    pipeBuf.light_pass_rendertarget.isSome = true :=
  (c6_toggle envAll 1 1 true pipeBuf).1 create_envAll_true

/-- C7: a successful `resize` installs a screen target and a 3-attachment
geometry target at the new dimensions and updates the stored width and height,
while the light-pass render target (hence its construction-time size), the
copy program and the light-pass program are unchanged. -/
theorem c7_resize_effect {env : Env} {p p' : DeferredPipeline} {w h : Nat}
    (hres : DeferredPipeline.resize env p w h = (p', .ok ())) :
    p'.width = w ∧ p'.height = h ∧
    p'.rendertarget = ⟨w, h⟩ ∧
    p'.geometry_pass_rendertarget =
      ⟨w, h, [⟨w, h⟩, ⟨w, h⟩, ⟨w, h⟩], ⟨w, h⟩⟩ ∧
    p'.light_pass_rendertarget = p.light_pass_rendertarget ∧
    p'.copy_program = p.copy_program ∧
    p'.light_pass_program = p.light_pass_program := by
  obtain ⟨hp', -, -⟩ := resize_ok_spec hres
  subst hp'
  exact ⟨rfl, rfl, rfl, rfl, rfl, rfl, rfl⟩

/-- The pipeline obtained by resizing `pipeBuf` to 2×2: new 2×2 screen and
geometry targets, everything else (in particular the 1×1 light-pass target)
unchanged. -/
def pipeBuf22 : DeferredPipeline :=
  { width := 2, height := 2, light_pass_program := lightProg,
    copy_program := some copyProg, rendertarget := ⟨2, 2⟩,
    geometry_pass_rendertarget := ⟨2, 2, [⟨2, 2⟩, ⟨2, 2⟩, ⟨2, 2⟩], ⟨2, 2⟩⟩,
    light_pass_rendertarget := some ⟨1, 1, [tex1], tex1⟩ }

/-- C7 witness: resizing the 1×1 buffered pipeline to 2×2. -/
theorem c7_witness :
    pipeBuf22.width = 2 ∧ pipeBuf22.height = 2 ∧
    pipeBuf22.rendertarget = ⟨2, 2⟩ ∧
    pipeBuf22.geometry_pass_rendertarget =
      ⟨2, 2, [⟨2, 2⟩, ⟨2, 2⟩, ⟨2, 2⟩], ⟨2, 2⟩⟩ ∧
    pipeBuf22.light_pass_rendertarget = pipeBuf.light_pass_rendertarget ∧
    pipeBuf22.copy_program = pipeBuf.copy_program ∧
    pipeBuf22.light_pass_program = pipeBuf.light_pass_program :=
  @c7_resize_effect envAll pipeBuf pipeBuf22 2 2 rfl

/-- C10: on every reachable pipeline the geometry target has exactly three
color attachments, so the fixed indices 0, 1, 2 used by the geometry-texture
accessors are in bounds and all of them return a texture (the depth accessor
is total by construction). -/
theorem c10_accessor_totality {flag : Bool} {p : DeferredPipeline}
    (hr : Reaches flag p) :
    p.geometry_pass_rendertarget.targets.length = 3 ∧
    p.geometry_pass_color_texture.isSome = true ∧
    p.geometry_pass_position_texture.isSome = true ∧
    p.geometry_pass_normal_texture.isSome = true := by
  obtain ⟨⟨t, ht⟩, -, -, -⟩ := reaches_good hr
  simp [DeferredPipeline.geometry_pass_color_texture,
    DeferredPipeline.geometry_pass_position_texture,
    DeferredPipeline.geometry_pass_normal_texture, ht]

/-- C10 witness: the accessors are in bounds on the concrete 1×1 pipeline. -/
theorem c10_witness :
    pipeBuf.geometry_pass_rendertarget.targets.length = 3 ∧
    pipeBuf.geometry_pass_color_texture.isSome = true ∧
    pipeBuf.geometry_pass_position_texture.isSome = true ∧
    pipeBuf.geometry_pass_normal_texture.isSome = true :=
  c10_accessor_totality (Reaches.create create_envAll_true)

/-- The size part of the spec's screen/geometry invariant: both render targets
are sized to the pipeline's stored `(width, height)`. -/
def DeferredPipeline.sizesMatch (p : DeferredPipeline) : Prop :=
  p.rendertarget.width = p.width ∧ p.rendertarget.height = p.height ∧
  p.geometry_pass_rendertarget.width = p.width ∧
  p.geometry_pass_rendertarget.height = p.height

/-- An environment in which color-target allocation succeeds only at width 8:
construction at 8×6 succeeds, and a later resize to 10×10 fails at the
geometry-target allocation after the screen target was already replaced. -/
def envC2 : Env :=
  ⟨fun _ _ => true, fun _ _ => true, fun w _ _ => w == 8, fun _ _ => true⟩

/-- The pipeline built by `DeferredPipeline.create envC2 8 6 false`. -/
def pipe86 : DeferredPipeline :=
  { width := 8, height := 6, light_pass_program := lightProg,
    copy_program := none, rendertarget := ⟨8, 6⟩,
    geometry_pass_rendertarget := ⟨8, 6, [⟨8, 6⟩, ⟨8, 6⟩, ⟨8, 6⟩], ⟨8, 6⟩⟩,
    light_pass_rendertarget := none }

/-- C2 counterexample: a resize from 8×6 to 10×10 that fails at the
geometry-target allocation returns an error after having already replaced the
screen target, leaving a pipeline whose screen target is 10×10 while its
stored width is still 8 — the claimed invariant does not survive a resize that
errors partway through. -/
theorem c2_counterexample :
    DeferredPipeline.create envC2 8 6 false = .ok pipe86 ∧
    (DeferredPipeline.resize envC2 pipe86 10 10).2 =
      .error (.Rendertarget (.colorAllocation 10 10 3)) ∧
    (DeferredPipeline.resize envC2 pipe86 10 10).1.rendertarget.width = 10 ∧
    (DeferredPipeline.resize envC2 pipe86 10 10).1.width = 8 ∧
    ¬ (DeferredPipeline.resize envC2 pipe86 10 10).1.sizesMatch := by
  refine ⟨rfl, rfl, rfl, rfl, ?_⟩
  intro hmatch
  obtain ⟨hsw, -⟩ := hmatch
  simp [DeferredPipeline.resize, ScreenRendertarget.create,
    ColorRendertarget.create, envC2, pipe86] at hsw

/-- C2 amended: the screen and geometry render targets match the stored
`(width, height)` after `create` and after every successful `resize`; a
`resize` that fails at the geometry-target allocation can leave the screen
target at the new size while the stored dimensions and the geometry target
keep the old ones. -/
theorem c2_size_invariant (env : Env) (w h : Nat) (flag : Bool)
    (p q p' : DeferredPipeline) :
    (DeferredPipeline.create env w h flag = .ok p →
      DeferredPipeline.sizesMatch p) ∧
    (DeferredPipeline.resize env q w h = (p', .ok ()) →
      DeferredPipeline.sizesMatch p') := by
  constructor
  · intro hc
    obtain ⟨hw, hh, -, hrt, hgrt, -⟩ := create_ok_spec hc
    exact ⟨by rw [hrt, hw], by rw [hrt, hh], by rw [hgrt, hw],
           by rw [hgrt, hh]⟩
  · intro hres
    obtain ⟨hp', -, -⟩ := resize_ok_spec hres
    subst hp'
    exact ⟨rfl, rfl, rfl, rfl⟩

/-- C2 amended witness: the invariant holds on the concretely constructed
8×6 pipeline. -/
theorem c2_witness : DeferredPipeline.sizesMatch pipe86 :=
  (c2_size_invariant envC2 8 6 false pipe86 pipe86 pipe86).1 rfl

/-- An environment in which shader compilation always fails. -/
def envNoProg : Env :=
  ⟨fun _ _ => false, fun _ _ => true, fun _ _ _ => true, fun _ _ => true⟩

/-- C8: `create` is all-or-nothing.  Each failing external step surfaces as
the corresponding typed error and no pipeline is returned (the return type
makes a partial pipeline impossible), and on success every component required
by the configuration is present. -/
theorem c8_create_totality (env : Env) (w h : Nat) (flag : Bool) :
    (env.progOk lightPassPath lightPassPath = false →
      DeferredPipeline.create env w h flag =
        .error (.Program (.compilation lightPassPath lightPassPath))) ∧
    (env.progOk lightPassPath lightPassPath = true →
      env.screenOk w h = false →
      DeferredPipeline.create env w h flag =
        .error (.Rendertarget (.screenAllocation w h))) ∧
    (env.progOk lightPassPath lightPassPath = true →
      env.screenOk w h = true → env.colorOk w h 3 = false →
      DeferredPipeline.create env w h flag =
        .error (.Rendertarget (.colorAllocation w h 3))) ∧
    (flag = true → env.progOk lightPassPath lightPassPath = true →
      env.screenOk w h = true → env.colorOk w h 3 = true →
      env.colorOk w h 1 = false →
      DeferredPipeline.create env w h flag =
        .error (.Rendertarget (.colorAllocation w h 1))) ∧
    (flag = true → env.progOk lightPassPath lightPassPath = true →
      env.screenOk w h = true → env.colorOk w h 3 = true →
      env.colorOk w h 1 = true → env.progOk copyPath copyPath = false →
      DeferredPipeline.create env w h flag =
        .error (.Program (.compilation copyPath copyPath))) ∧
    (∀ p, DeferredPipeline.create env w h flag = .ok p →
      p.light_pass_program = ⟨lightPassPath, lightPassPath⟩ ∧
      p.rendertarget = ⟨w, h⟩ ∧
      p.geometry_pass_rendertarget.targets.length = 3 ∧
      (flag = true → p.copy_program.isSome = true ∧
        p.light_pass_rendertarget.isSome = true)) := by
  refine ⟨?_, ?_, ?_, ?_, ?_, ?_⟩
  · intro h1
    simp [DeferredPipeline.create, Program.from_resource, h1]
  · intro h1 h2
    simp [DeferredPipeline.create, Program.from_resource,
      ScreenRendertarget.create, h1, h2]
  · intro h1 h2 h3
    simp [DeferredPipeline.create, Program.from_resource,
      ScreenRendertarget.create, ColorRendertarget.create, h1, h2, h3]
  · rintro rfl h1 h2 h3 h4
    simp [DeferredPipeline.create, Program.from_resource,
      ScreenRendertarget.create, ColorRendertarget.create, h1, h2, h3, h4]
  · rintro rfl h1 h2 h3 h4 h5
    simp [DeferredPipeline.create, Program.from_resource,
      ScreenRendertarget.create, ColorRendertarget.create, h1, h2, h3, h4,
      h5]
  · intro p hc
    obtain ⟨-, -, hlp, hrt, hgrt, hopt⟩ := create_ok_spec hc
    refine ⟨hlp, hrt, by simp [hgrt], ?_⟩
    rintro rfl
    rcases hopt with ⟨-, hcp, hlrt⟩ | ⟨hf, -, -⟩
    · simp [hcp, hlrt]
    · cases hf

/-- C8 witness: with a compiler that always fails, `create` returns exactly
the `Program` error. -/
theorem c8_witness :
    DeferredPipeline.create envNoProg 1 1 true =
      .error (.Program (.compilation lightPassPath lightPassPath)) :=
  (c8_create_totality envNoProg 1 1 true).1 rfl

/-- C9: a `create` at positive dimensions followed immediately by a `resize`
to the same dimensions succeeds and returns the pipeline completely unchanged
— same target sizes, same configuration, same stored dimensions, hence every
pass operation behaves identically. -/
theorem c9_create_then_resize {env : Env} {w h : Nat} {flag : Bool}
    {p : DeferredPipeline} (_hw : 0 < w) (_hh : 0 < h)
    (hc : DeferredPipeline.create env w h flag = .ok p) :
    DeferredPipeline.resize env p w h = (p, .ok ()) := by
  obtain ⟨-, hscr, hcol⟩ := create_ok_env hc
  obtain ⟨hpw, hph, -, hrt, hgrt, -⟩ := create_ok_spec hc
  rw [resize_of_ok p hscr hcol]
  cases p
  simp_all

/-- C9 witness: creating at 1×1 and resizing to 1×1 returns the identical
pipeline. -/
theorem c9_witness :
    DeferredPipeline.resize envAll pipeBuf 1 1 = (pipeBuf, .ok ()) :=
  c9_create_then_resize (by decide) (by decide) create_envAll_true

/-- C1: a run of `light_pass_begin` binds and clears the light-pass target
when present and the screen target otherwise, sets depth write off, depth test
off, back-face culling and additive ONE+ONE blending, binds the geometry-pass
color, position, normal and depth textures to sampler slots 0, 1, 2, 3 with
the light program's `colorMap`, `positionMap`, `normalMap`, `depthMap`
uniforms set to 0, 1, 2, 3, and uploads the camera position as `eyePosition`;
when it instead fails, the failure is a `Program` error from a uniform set. -/
theorem c1_light_pass_begin {flag : Bool} {p : DeferredPipeline}
    (env : Env) (camera : Camera) (hr : Reaches flag p) :
    ∃ ct pt nt : Texture,
      p.geometry_pass_color_texture = some ct ∧
      p.geometry_pass_position_texture = some pt ∧
      p.geometry_pass_normal_texture = some nt ∧
      (p.light_pass_begin env camera).isSome = true ∧
      ∀ tr res, p.light_pass_begin env camera = some (tr, res) →
        (res = .ok () →
          tr = (match p.light_pass_rendertarget with
            | some rt => [GpuCmd.bindColor rt, GpuCmd.clearColor rt]
            | none => [GpuCmd.bindScreen p.rendertarget,
                       GpuCmd.clearScreen p.rendertarget]) ++
            [.depthWrite false, .depthTest .NONE, .cull .BACK,
             .blend .ONE__ONE,
             .bindTexture ct 0, .uniformInt p.light_pass_program "colorMap" 0,
             .bindTexture pt 1,
             .uniformInt p.light_pass_program "positionMap" 1,
             .bindTexture nt 2, .uniformInt p.light_pass_program "normalMap" 2,
             .bindTexture p.geometry_pass_depth_texture 3,
             .uniformInt p.light_pass_program "depthMap" 3,
             .uniformVec3 p.light_pass_program "eyePosition"
               camera.position]) ∧
        (∀ e, res = .error e → ∃ pe, e = .Program pe) := by
  obtain ⟨⟨t, ht⟩, -, -, -⟩ := reaches_good hr
  have hct : p.geometry_pass_color_texture = some t := by
    simp [DeferredPipeline.geometry_pass_color_texture, ht]
  have hpt : p.geometry_pass_position_texture = some t := by
    simp [DeferredPipeline.geometry_pass_position_texture, ht]
  have hnt : p.geometry_pass_normal_texture = some t := by
    simp [DeferredPipeline.geometry_pass_normal_texture, ht]
  refine ⟨t, t, t, hct, hpt, hnt, ?_, ?_⟩
  · simp [DeferredPipeline.light_pass_begin, hct, hpt, hnt]
  · intro tr res heq
    simp only [DeferredPipeline.light_pass_begin, hct, hpt, hnt,
      Option.bind_eq_bind, Option.some_bind, Option.some.injEq] at heq
    by_cases u1 : env.uniformOk p.light_pass_program "colorMap" = true <;>
    by_cases u2 : env.uniformOk p.light_pass_program "positionMap" = true <;>
    by_cases u3 : env.uniformOk p.light_pass_program "normalMap" = true <;>
    by_cases u4 : env.uniformOk p.light_pass_program "depthMap" = true <;>
    by_cases u5 : env.uniformOk p.light_pass_program "eyePosition" = true <;>
    simp only [andThen, Program.add_uniform_int, Program.add_uniform_vec3,
      u1, u2, u3, u4, u5, if_true, if_false, List.append_assoc,
      List.cons_append, List.nil_append, Prod.mk.injEq] at heq <;>
    obtain ⟨rfl, rfl⟩ := heq <;>
    constructor <;> simp

/-- A camera at the origin. -/
def cam0 : Camera := ⟨⟨0, 0, 0⟩⟩

/-- C1 witness: the light-pass begin protocol on the concrete buffered 1×1
pipeline with the origin camera. -/
theorem c1_witness :
    ∃ ct pt nt : Texture,
      pipeBuf.geometry_pass_color_texture = some ct ∧
      pipeBuf.geometry_pass_position_texture = some pt ∧
      pipeBuf.geometry_pass_normal_texture = some nt ∧
      (pipeBuf.light_pass_begin envAll cam0).isSome = true ∧
      ∀ tr res, pipeBuf.light_pass_begin envAll cam0 = some (tr, res) →
        (res = .ok () →
          tr = (match pipeBuf.light_pass_rendertarget with
            | some rt => [GpuCmd.bindColor rt, GpuCmd.clearColor rt]
            | none => [GpuCmd.bindScreen pipeBuf.rendertarget,
                       GpuCmd.clearScreen pipeBuf.rendertarget]) ++
            [.depthWrite false, .depthTest .NONE, .cull .BACK,
             .blend .ONE__ONE,
             .bindTexture ct 0,
             .uniformInt pipeBuf.light_pass_program "colorMap" 0,
             .bindTexture pt 1,
             .uniformInt pipeBuf.light_pass_program "positionMap" 1,
             .bindTexture nt 2,
             .uniformInt pipeBuf.light_pass_program "normalMap" 2,
             .bindTexture pipeBuf.geometry_pass_depth_texture 3,
             .uniformInt pipeBuf.light_pass_program "depthMap" 3,
             .uniformVec3 pipeBuf.light_pass_program "eyePosition"
               cam0.position]) ∧
        (∀ e, res = .error e → ∃ pe, e = .Program pe) :=
  c1_light_pass_begin envAll cam0 (Reaches.create create_envAll_true)

/-- C5: `copy_to_screen` fails with the availability error exactly on
pipelines constructed without light-pass buffering, and then issues no GPU
command at all; with buffering enabled it binds and clears the screen target,
sets depth write on, depth test LEQUAL, back-face culling, blending off,
binds the light-pass color texture to slot 0 and the geometry depth texture
to slot 1 with matching sampler uniforms on the copy program and draws a
full-screen quad with it, any failure being a `Program` error instead of an
availability error. -/
theorem c5_copy_to_screen {flag : Bool} {p : DeferredPipeline} (env : Env)
    (hr : Reaches flag p) :
    (flag = false →
      p.copy_to_screen env =
        some ([], .error
          (.LightPassRendertargetNotAvailable lightPassNotAvailableMsg))) ∧
    (flag = true →
      ∃ pr tex, p.copy_program = some pr ∧
        p.light_pass_color_texture = some (.ok tex) ∧
        (p.copy_to_screen env).isSome = true ∧
        ∀ tr res, p.copy_to_screen env = some (tr, res) →
          ((env.uniformOk pr "colorMap" = true →
            env.uniformOk pr "depthMap" = true →
            tr = [.bindScreen p.rendertarget, .clearScreen p.rendertarget,
                  .depthWrite true, .depthTest .LEQUAL, .cull .BACK,
                  .blend .NONE, .bindTexture tex 0,
                  .uniformInt pr "colorMap" 0,
                  .bindTexture p.geometry_pass_depth_texture 1,
                  .uniformInt pr "depthMap" 1, .fullScreenQuad pr] ∧
            res = .ok ()) ∧
          (∀ e, res = .error e → ∃ pe, e = .Program pe))) := by
  obtain ⟨-, hcp, hlf, hlo⟩ := reaches_good hr
  constructor
  · rintro rfl
    have h1 : p.copy_program = none := by
      cases h : p.copy_program <;> simp [h] at hcp ⊢
    simp [DeferredPipeline.copy_to_screen, DeferredPipeline.get_copy_program,
      h1]
  · rintro rfl
    have h1 : ∃ pr, p.copy_program = some pr := by
      cases h : p.copy_program <;> simp [h] at hcp ⊢
    have h2 : ∃ rt, p.light_pass_rendertarget = some rt := by
      cases h : p.light_pass_rendertarget <;> simp [h] at hlf ⊢
    obtain ⟨pr, hpr⟩ := h1
    obtain ⟨rt, hrt⟩ := h2
    obtain ⟨t, ht⟩ := hlo rt hrt
    have hlpct : p.light_pass_color_texture = some (.ok t) := by
      simp [DeferredPipeline.light_pass_color_texture, hrt, ht]
    refine ⟨pr, t, hpr, hlpct, ?_, ?_⟩
    · simp [DeferredPipeline.copy_to_screen,
        DeferredPipeline.get_copy_program, hpr, hlpct]
    · intro tr res heq
      simp only [DeferredPipeline.copy_to_screen,
        DeferredPipeline.get_copy_program, hpr, hlpct,
        Option.some.injEq] at heq
      by_cases u1 : env.uniformOk pr "colorMap" = true <;>
      by_cases u2 : env.uniformOk pr "depthMap" = true <;>
      simp only [andThen, Program.add_uniform_int, u1, u2, if_true,
        if_false, List.append_assoc, List.cons_append, List.nil_append,
        Prod.mk.injEq] at heq <;>
      obtain ⟨rfl, rfl⟩ := heq <;>
      constructor <;> simp [u1, u2]

/-- C5 witness: on the concrete unbuffered 1×1 pipeline, `copy_to_screen`
returns the availability error with an empty command trace. -/
theorem c5_witness :
    pipeNoBuf.copy_to_screen envAll =
      some ([], .error
        (.LightPassRendertargetNotAvailable lightPassNotAvailableMsg)) :=
  (c5_copy_to_screen envAll (Reaches.create create_envAll_false)).1 rfl

end ThreeD
